import Mathlib

/-!
# ClipSnap — shallow embedding and verification of the spec's claims

This file embeds the claim-relevant parts of the ClipSnap sources in Lean 4
and settles each claim of the specification against them.

Embedded components:
* `src/models/history_entry.rs` — `ContentType`, `HistoryEntry`;
* `src/database.rs` — the SQLite-backed `Database` (`insert_text`,
  `insert_image`, `get_recent_entries_by_type`, `search_text`,
  `enforce_max_entries`), modelled as a list of rows plus the AUTOINCREMENT
  counter.  A SQL `SELECT` without `ORDER BY` scans the table b-tree in rowid
  (insertion) order, so the row list is kept in insertion order.  For
  `ORDER BY created_at DESC` the model sorts by `created_at` descending and,
  within equal keys, id ascending: SQLite satisfies this `ORDER BY` by a
  descending scan of the `idx_created_at` index (or a stable sort of a
  rowid-ordered scan), and index entries with equal keys are ordered by
  ascending rowid, so rows with equal `created_at` are produced in ascending
  id order.  `text_content LIKE '%q%'` is modelled by SQLite's default
  `LIKE`: ASCII-case-insensitive, `%`/`_` wildcards, `NULL` never matches;
* `src/screenshot.rs` — `capture_region`, `bgra_to_rgba`, `encode_png`.
  `image::ImageBuffer::from_raw` succeeds iff the container holds at least
  `width*height*4` bytes, and `write_to` encodes exactly the first
  `width*height*4` bytes; the `png` encoder rejects zero-width or
  zero-height images.  The PNG byte serialization itself is opaque to every
  claim, so the encoder's output is represented by the exact pixel payload
  it losslessly determines.  Thumbnail bytes are likewise opaque and are
  represented by an uninterpreted empty payload;
* `src/clipboard.rs` — one iteration of the `monitor_clipboard` loop as a
  pure step function.  The `DefaultHasher` content hash is an abstract
  parameter (claims only compare hashes for equality).  Clipboard/database
  lock acquisition and SQLite write errors are failure-injection inputs.
-/

/-- `ContentType` from `src/models/history_entry.rs`. -/
inductive ContentType where
  | image
  | text
deriving DecidableEq, Repr

/-- `HistoryEntry` from `src/models/history_entry.rs`.  `i64` fields are
modelled as `Int`, blobs as `List Nat` (byte values). -/
structure HistoryEntry where
  id : Int
  content_type : ContentType
  image_data : Option (List Nat)
  thumbnail : Option (List Nat)
  text_content : Option String
  created_at : Int
  file_size : Int
deriving DecidableEq, Repr

/-- The `Database` of `src/database.rs`: the `clipboard_history` table in
rowid (insertion) order, plus the AUTOINCREMENT counter for the next rowid. -/
structure Database where
  rows : List HistoryEntry
  nextId : Int
deriving DecidableEq, Repr

/-- A freshly initialised database: empty table, first rowid is 1. -/
def Database.empty : Database := ⟨[], 1⟩

/-- `insert_text` from `src/database.rs`: unconditionally INSERTs a new row
with `content_type='text'`, `created_at = now`, `file_size` = UTF-8 byte
length, and returns `last_insert_rowid()`. -/
def Database.insert_text (db : Database) (text : String) (now : Int) : Database × Int :=
  let r : HistoryEntry :=
    { id := db.nextId
      content_type := .text
      image_data := none
      thumbnail := none
      text_content := some text
      created_at := now
      file_size := (text.utf8ByteSize : Int) }
  ({ rows := db.rows ++ [r], nextId := db.nextId + 1 }, db.nextId)

/-- `insert_image` from `src/database.rs`: unconditionally INSERTs a new row
with `content_type='image'`, both blobs bound, `file_size` = PNG byte
length. -/
def Database.insert_image (db : Database) (png thumb : List Nat) (now : Int) : Database × Int :=
  let r : HistoryEntry :=
    { id := db.nextId
      content_type := .image
      image_data := some png
      thumbnail := some thumb
      text_content := none
      created_at := now
      file_size := (png.length : Int) }
  ({ rows := db.rows ++ [r], nextId := db.nextId + 1 }, db.nextId)

/-- Row order produced by `ORDER BY created_at DESC` over this table:
`created_at` descending; rows with equal `created_at` in ascending id order
(SQLite's descending index scan yields equal-key entries in ascending rowid
order — the SQL itself specifies no tiebreak). -/
def rowLe (a b : HistoryEntry) : Prop :=
  b.created_at < a.created_at ∨ (a.created_at = b.created_at ∧ a.id ≤ b.id)

instance rowLe.instDecidableRel : DecidableRel rowLe := fun a b =>
  inferInstanceAs (Decidable (b.created_at < a.created_at ∨
    (a.created_at = b.created_at ∧ a.id ≤ b.id)))

instance rowLe.instIsTotal : IsTotal HistoryEntry rowLe where
  total a b := by unfold rowLe; omega

instance rowLe.instIsTrans : IsTrans HistoryEntry rowLe where
  trans a b c hab hbc := by unfold rowLe at *; omega

/-- Evaluation of `ORDER BY created_at DESC` on a list of rows. -/
def sortRows (l : List HistoryEntry) : List HistoryEntry :=
  List.insertionSort rowLe l

/-- `get_recent_entries_by_type` from `src/database.rs`:
`WHERE content_type = ?1 ORDER BY created_at DESC LIMIT ?2`. -/
def Database.get_recent_entries_by_type (db : Database) (limit : Nat)
    (content_type : ContentType) : List HistoryEntry :=
  (sortRows (db.rows.filter (fun r => decide (r.content_type = content_type)))).take limit

/-- ASCII lower-casing as applied by SQLite's default `LIKE`. -/
def lowerAscii (c : Char) : Char :=
  if 'A' ≤ c ∧ c ≤ 'Z' then Char.ofNat (c.toNat + 32) else c

/-- SQLite's default `LIKE` pattern match (no ESCAPE clause):
`%` matches any sequence, `_` any single character, other characters match
ASCII-case-insensitively.  Fuel-structured so it evaluates by `decide`;
`likeMatch` below supplies sufficient fuel. -/
def likeMatchF : Nat → List Char → List Char → Bool
  | 0, _, _ => false
  | _ + 1, [], t => t.isEmpty
  | f + 1, '%' :: ps, [] => likeMatchF f ps []
  | _ + 1, _ :: _, [] => false
  | f + 1, '%' :: ps, c :: ts => likeMatchF f ps (c :: ts) || likeMatchF f ('%' :: ps) ts
  | f + 1, '_' :: ps, _ :: ts => likeMatchF f ps ts
  | f + 1, p :: ps, c :: ts => (lowerAscii p == lowerAscii c) && likeMatchF f ps ts

/-- `pattern LIKE`-matches `text` (SQLite default semantics). -/
def likeMatch (pattern text : List Char) : Bool :=
  likeMatchF (pattern.length + text.length + 1) pattern text

/-- The pattern built by `search_text`: `format!("%{}%", query)`. -/
def likePattern (query : String) : List Char :=
  '%' :: (query.data ++ ['%'])

/-- The `WHERE text_content LIKE ?1` filter of `search_text`: a `NULL`
`text_content` never matches. -/
def likeFilter (query : String) (r : HistoryEntry) : Bool :=
  match r.text_content with
  | some t => likeMatch (likePattern query) t.data
  | none => false

/-- `search_text` from `src/database.rs`:
`WHERE text_content LIKE '%query%' ORDER BY created_at DESC LIMIT 50`. -/
def Database.search_text (db : Database) (query : String) : List HistoryEntry :=
  (sortRows (db.rows.filter (likeFilter query))).take 50

/-- `enforce_max_entries` from `src/database.rs`:
`DELETE ... WHERE id NOT IN (SELECT id ... ORDER BY created_at DESC LIMIT max)`. -/
def Database.enforce_max_entries (db : Database) (max : Nat) : Database :=
  let keep := ((sortRows db.rows).take max).map (·.id)
  { db with rows := db.rows.filter (fun r => decide (r.id ∈ keep)) }

/-- States reachable through the `Database` API: ids strictly increase along
the table (AUTOINCREMENT), are below the counter, and each row has exactly
the payload column of its type populated (the schema CHECK plus the fact
that `insert_text`/`insert_image` bind only their own payload columns). -/
def Database.Wf (db : Database) : Prop :=
  db.rows.Pairwise (fun a b => a.id < b.id) ∧
  (∀ r ∈ db.rows, r.id < db.nextId) ∧
  (∀ r ∈ db.rows,
    (r.content_type = .text → r.text_content.isSome ∧ r.image_data = none) ∧
    (r.content_type = .image → r.image_data.isSome ∧ r.text_content = none))

instance Database.Wf.instDecidable (db : Database) : Decidable db.Wf := by
  unfold Database.Wf; infer_instance

/-- `CaptureError` cases raised by `capture_region` in `src/screenshot.rs`
(connection failure is an input precondition here: the model receives the
already-connected screen). -/
inductive CaptureError where
  | invalidDimensions
  | outOfBounds
deriving DecidableEq, Repr

/-- `EncodeError` cases raised by `encode_png`. -/
inductive EncodeError where
  | sizeMismatch
  | codecFailure
deriving DecidableEq, Repr

/-- The X11 screen bounds (`width_in_pixels`/`height_in_pixels`, both `u16`). -/
structure X11Screen where
  width : Nat
  height : Nat
deriving DecidableEq, Repr

/-- The in-place alpha normalisation of `capture_region`:
`for chunk in data.chunks_exact_mut(4) { chunk[3] = 255; }` — every fourth
byte set to 255, a trailing remainder of fewer than 4 bytes untouched. -/
def setAlphaOpaque : List Nat → List Nat
  | b :: g :: r :: _ :: rest => b :: g :: r :: 255 :: setAlphaOpaque rest
  | l => l

/-- `capture_region` from `src/screenshot.rs`.  `screen` is the connected
display's reported bounds and `reply` the raw byte data of the X11
`GetImage` reply (both external inputs to the pure logic).  Coordinates are
`i32`/`u32` as in the source; the screen bounds are `u16` values cast to
`i32`. -/
def capture_region (screen : X11Screen) (reply : List Nat) (x y : Int) (w h : Nat) :
    Except CaptureError (List Nat × Nat × Nat) :=
  if w = 0 ∨ h = 0 then
    .error .invalidDimensions
  else
    let sw : Int := screen.width
    let sh : Int := screen.height
    if x < 0 ∨ y < 0 ∨ sw ≤ x ∨ sh ≤ y then
      .error .outOfBounds
    else
      let actual_w := min w (sw - x).toNat
      let actual_h := min h (sh - y).toNat
      .ok (setAlphaOpaque reply, actual_w, actual_h)

/-- `bgra_to_rgba` from `src/screenshot.rs`: per 4-byte chunk, emit bytes
`[2, 1, 0, 3]`; `chunks_exact(4)` discards a trailing remainder. -/
def bgra_to_rgba : List Nat → List Nat
  | b :: g :: r :: a :: rest => r :: g :: b :: a :: bgra_to_rgba rest
  | _ => []

/-- `encode_png` from `src/screenshot.rs`.  `ImageBuffer::from_raw` fails
(`size mismatch`) iff the buffer holds fewer than `width*height*4` bytes
(or that product overflows `usize`, in which case any real buffer is also
too small); `write_to` then PNG-encodes exactly the first `width*height*4`
bytes and fails only for a zero width or height, which the `png` encoder
rejects.  The PNG container is represented by the pixel payload it
losslessly determines. -/
def encode_png (rgba_pixels : List Nat) (width height : Nat) :
    Except EncodeError (List Nat) :=
  if rgba_pixels.length < width * height * 4 then
    .error .sizeMismatch
  else if width = 0 ∨ height = 0 then
    .error .codecFailure
  else
    .ok (rgba_pixels.take (width * height * 4))

/-- `create_thumbnail` from `src/screenshot.rs`, as used by the monitor:
`create_thumbnail(&png, 150).unwrap_or_default()`.  Thumbnail bytes are
opaque to every claim; they are represented by an uninterpreted empty
payload. -/
def create_thumbnail (_png : List Nat) (_max_size : Nat) : List Nat := []

/-- Truncation of a `usize` value to `u32`, as performed by
`img.width as u32` in the monitor's image branch. -/
def u32 (n : Nat) : Nat := n % 2 ^ 32

/-- The two `calculate_hash` channels of `src/clipboard.rs`
(`DefaultHasher` over the text's UTF-8 bytes resp. the raw image bytes).
Abstract: claims only compare hash values for equality. -/
structure Hasher where
  text : String → Nat
  bytes : List Nat → Nat

/-- The clipboard image as returned by `arboard`'s `get_image`:
RGBA bytes plus `usize` dimensions. -/
structure ClipImage where
  width : Nat
  height : Nat
  bytes : List Nat

/-- The monitor's mutable state across cycles: the `u32` no-change counter
and the two per-channel "last hash" slots (both `None` at startup). -/
structure MonState where
  noChangeCount : Nat
  lastTextHash : Option Nat
  lastImageHash : Option Nat
deriving DecidableEq, Repr

/-- The external events of one polling cycle: the two independent clipboard
reads (`none` = the read returned `Err`), plus failure injection for the
lock acquisitions and SQLite inserts of that cycle. -/
structure CycleInput where
  clipboardLockOk : Bool
  textRead : Option String
  imageRead : Option ClipImage
  textDbLockOk : Bool
  textInsertOk : Bool
  imageDbLockOk : Bool
  imageInsertOk : Bool

/-- Outcome of one channel check within a cycle: the channel's "last hash"
slot after the check, whether new content was observed (`is_new` with
non-empty content), whether the store insert was called and whether it
succeeded, and the database afterwards. -/
structure StepOut where
  lastHash : Option Nat
  observedNew : Bool
  called : Bool
  succeeded : Bool
  db : Database
deriving Repr

/-- The text-channel check of `monitor_clipboard` (src/clipboard.rs:70-87).
On new non-empty text: `insert_text` is called iff the db lock is taken, and
the "last text hash" slot is assigned `Some(hash)` unconditionally — also
when the lock or the insert failed. -/
def textStep (H : Hasher) (last : Option Nat) (db : Database) (read : Option String)
    (dbLockOk insertOk : Bool) (now : Int) : StepOut :=
  match read with
  | none => ⟨last, false, false, false, db⟩
  | some text =>
    if text = "" then ⟨last, false, false, false, db⟩
    else
      let h := H.text text
      if last = some h then ⟨last, false, false, false, db⟩
      else
        let ok := dbLockOk && insertOk
        ⟨some h, true, dbLockOk, ok, if ok then (db.insert_text text now).1 else db⟩

/-- The image-channel check of `monitor_clipboard` (src/clipboard.rs:89-113).
On new non-empty bytes the `usize` dimensions are truncated to `u32`, the
bytes are PNG-encoded, and `insert_image` is called iff encoding succeeded
and the db lock is taken; the "last image hash" slot is assigned
`Some(hash)` unconditionally — also on encode, lock, or insert failure. -/
def imageStep (H : Hasher) (last : Option Nat) (db : Database) (read : Option ClipImage)
    (dbLockOk insertOk : Bool) (now : Int) : StepOut :=
  match read with
  | none => ⟨last, false, false, false, db⟩
  | some img =>
    if img.bytes = [] then ⟨last, false, false, false, db⟩
    else
      let h := H.bytes img.bytes
      if last = some h then ⟨last, false, false, false, db⟩
      else
        match encode_png img.bytes (u32 img.width) (u32 img.height) with
        | .error _ => ⟨some h, true, false, false, db⟩
        | .ok png =>
          let ok := dbLockOk && insertOk
          ⟨some h, true, dbLockOk, ok,
            if ok then (db.insert_image png (create_thumbnail png 150) now).1 else db⟩

/-- Everything one loop iteration of `monitor_clipboard` determines: the
interval slept at the start of the cycle, the two channel outcomes, and the
monitor state and database afterwards. -/
structure CycleResult where
  pollInterval : Nat
  text : StepOut
  image : StepOut
  state : MonState
  db : Database

/-- One iteration of the `monitor_clipboard` loop (src/clipboard.rs:50-121).
Sleep interval: 1000ms if `no_change_count > 5`, else 750ms.  If the
clipboard lock cannot be taken the iteration `continue`s: no channel check,
counter and slots unchanged.  Otherwise both channels are checked (text
first), `changed` is true iff either channel observed new content
(irrespective of insert success), and the counter is reset to 0 on `changed`
and saturating-incremented (`u32`) otherwise. -/
def monitorCycle (H : Hasher) (st : MonState) (db : Database) (inp : CycleInput)
    (now : Int) : CycleResult :=
  let interval := if st.noChangeCount > 5 then 1000 else 750
  if inp.clipboardLockOk then
    let t := textStep H st.lastTextHash db inp.textRead inp.textDbLockOk inp.textInsertOk now
    let i := imageStep H st.lastImageHash t.db inp.imageRead inp.imageDbLockOk
      inp.imageInsertOk now
    let changed := t.observedNew || i.observedNew
    let cnt := if changed then 0 else min (st.noChangeCount + 1) (2 ^ 32 - 1)
    ⟨interval, t, i, ⟨cnt, t.lastHash, i.lastHash⟩, i.db⟩
  else
    ⟨interval, ⟨st.lastTextHash, false, false, false, db⟩,
      ⟨st.lastImageHash, false, false, false, db⟩, st, db⟩

/-- Literal (case-sensitive, wildcard-free) substring containment, following
the spec's words "contains q as a literal substring" — the property the
spec ascribes to `searchText`, to be compared with the code's `LIKE`
filter. -/
def startsWithL : List Char → List Char → Bool
  | [], _ => true
  | _ :: _, [] => false
  | a :: as, b :: bs => a == b && startsWithL as bs

/-- `containsSub needle hay`: `needle` occurs contiguously in `hay`. -/
def containsSub (needle : List Char) : List Char → Bool
  | [] => startsWithL needle []
  | c :: rest => startsWithL needle (c :: rest) || containsSub needle rest

theorem sortRows_perm (l : List HistoryEntry) : (sortRows l).Perm l :=
  List.perm_insertionSort rowLe l

theorem sortRows_sorted (l : List HistoryEntry) : List.Sorted rowLe (sortRows l) :=
  List.sorted_insertionSort rowLe l

theorem bgra_to_rgba_double :
    ∀ p : List Nat, p.length % 4 = 0 → bgra_to_rgba (bgra_to_rgba p) = p
  | [], _ => rfl
  | [_], h => by simp at h
  | [_, _], h => by simp at h
  | [_, _, _], h => by simp at h
  | b :: g :: r :: a :: rest, h => by
    have hr : rest.length % 4 = 0 := by
      simp only [List.length_cons] at h; omega
    simp [bgra_to_rgba, bgra_to_rgba_double rest hr]

theorem bgra_to_rgba_length :
    ∀ p : List Nat, (bgra_to_rgba p).length = 4 * (p.length / 4)
  | [] => rfl
  | [_] => by simp [bgra_to_rgba]
  | [_, _] => by simp [bgra_to_rgba]
  | [_, _, _] => by simp [bgra_to_rgba]
  | b :: g :: r :: a :: rest => by
    simp only [bgra_to_rgba, List.length_cons, bgra_to_rgba_length rest]
    omega

/-- C10: `bgra_to_rgba` is an involution on buffers whose length is a
multiple of 4 (each 4-byte pixel has bytes 0 and 2 swapped, bytes 1 and 3
preserved); for any buffer, the trailing `length % 4` bytes are discarded
and the output length is `4 * (length / 4)`. -/
theorem claim_C10_bgra_involution :
    (∀ p : List Nat, p.length % 4 = 0 → bgra_to_rgba (bgra_to_rgba p) = p) ∧
    (∀ b g r a : Nat, ∀ rest : List Nat,
      bgra_to_rgba (b :: g :: r :: a :: rest) = r :: g :: b :: a :: bgra_to_rgba rest) ∧
    (∀ p : List Nat, (bgra_to_rgba p).length = 4 * (p.length / 4)) :=
  ⟨bgra_to_rgba_double, fun _ _ _ _ _ => rfl, bgra_to_rgba_length⟩

/-- Witness for C10 at the byte buffer of the repository's own
`test_bgra_to_rgba` test. -/
theorem claim_C10_bgra_involution_witness :
    ([10, 20, 30, 255, 40, 50, 60, 255] : List Nat).length % 4 = 0 ∧
    bgra_to_rgba (bgra_to_rgba [10, 20, 30, 255, 40, 50, 60, 255]) =
      [10, 20, 30, 255, 40, 50, 60, 255] :=
  ⟨by decide, claim_C10_bgra_involution.1 _ (by decide)⟩

/-- C5 counterexample: `encode_png` *succeeds* on a buffer of 8 bytes for a
1×1 image even though `8 ≠ 1*1*4` — `ImageBuffer::from_raw` only requires
the buffer to hold *at least* `width*height*4` bytes, so the claim that any
length different from `width*height*4` fails is false. -/
theorem claim_C5_counterexample :
    encode_png [0, 0, 0, 0, 0, 0, 0, 0] 1 1 = .ok [0, 0, 0, 0] ∧
    ([0, 0, 0, 0, 0, 0, 0, 0] : List Nat).length ≠ 1 * 1 * 4 :=
  ⟨rfl, by decide⟩

/-- C5 amended: `encode_png` fails with `EncodeError` iff the buffer holds
*fewer than* `width*height*4` bytes (size mismatch) or the width or height
is zero (the PNG codec rejects empty images); a longer buffer is accepted
and the container is built from exactly the first `width*height*4` bytes.
The bounds hypotheses delimit the modelled `u32`/`usize` value ranges. -/
theorem claim_C5_encode_png_amended (rgba : List Nat) (width height : Nat)
    (_hw : width < 2 ^ 32) (_hh : height < 2 ^ 32) (_hlen : rgba.length < 2 ^ 64) :
    (width * height * 4 ≤ rgba.length → width ≠ 0 → height ≠ 0 →
      encode_png rgba width height = .ok (rgba.take (width * height * 4))) ∧
    (rgba.length < width * height * 4 →
      encode_png rgba width height = .error .sizeMismatch) ∧
    (width * height * 4 ≤ rgba.length → (width = 0 ∨ height = 0) →
      encode_png rgba width height = .error .codecFailure) := by
  unfold encode_png
  refine ⟨fun hle hw0 hh0 => ?_, fun hlt => ?_, fun hle hz => ?_⟩
  · rw [if_neg (by omega), if_neg (by omega)]
  · rw [if_pos hlt]
  · rw [if_neg (by omega), if_pos hz]

/-- Witness for C5 (amended): a 1×2 image with a surplus byte is encoded
from the first 8 bytes. -/
theorem claim_C5_encode_png_amended_witness :
    (1 : Nat) * 2 * 4 ≤ ([9, 9, 9, 9, 9, 9, 9, 9, 7] : List Nat).length ∧
    encode_png [9, 9, 9, 9, 9, 9, 9, 9, 7] 1 2 = .ok [9, 9, 9, 9, 9, 9, 9, 9] :=
  ⟨by decide,
    by
      have h := (claim_C5_encode_png_amended [9, 9, 9, 9, 9, 9, 9, 9, 7] 1 2
        (by decide) (by decide) (by decide)).1 (by decide) (by decide) (by decide)
      simpa using h⟩

/-- C6: `capture_region` fails with `CaptureError` when the requested width
or height is zero, or when the origin lies outside the display's reported
bounds; otherwise it clamps the requested dimensions so the region never
extends past the display bounds and returns the clamped dimensions
alongside the (alpha-normalised) pixels. -/
theorem claim_C6_capture_region (screen : X11Screen) (reply : List Nat)
    (x y : Int) (w h : Nat) :
    ((w = 0 ∨ h = 0) →
      capture_region screen reply x y w h = .error .invalidDimensions) ∧
    (¬(w = 0 ∨ h = 0) →
      (x < 0 ∨ y < 0 ∨ (screen.width : Int) ≤ x ∨ (screen.height : Int) ≤ y) →
      capture_region screen reply x y w h = .error .outOfBounds) ∧
    (¬(w = 0 ∨ h = 0) → 0 ≤ x → 0 ≤ y →
      x < (screen.width : Int) → y < (screen.height : Int) →
      capture_region screen reply x y w h =
        .ok (setAlphaOpaque reply, min w ((screen.width : Int) - x).toNat,
          min h ((screen.height : Int) - y).toNat) ∧
      min w ((screen.width : Int) - x).toNat ≤ w ∧
      min h ((screen.height : Int) - y).toNat ≤ h ∧
      x + (min w ((screen.width : Int) - x).toNat : Int) ≤ (screen.width : Int) ∧
      y + (min h ((screen.height : Int) - y).toNat : Int) ≤ (screen.height : Int)) := by
  refine ⟨fun hz => ?_, fun hnz hob => ?_, fun hnz hx0 hy0 hxw hyh => ?_⟩
  · simp only [capture_region]
    rw [if_pos hz]
  · simp only [capture_region]
    rw [if_neg hnz, if_pos hob]
  · refine ⟨?_, ?_, ?_, ?_, ?_⟩
    · simp only [capture_region]
      rw [if_neg hnz, if_neg (by omega)]
    · exact Nat.min_le_left _ _
    · exact Nat.min_le_left _ _
    · omega
    · omega

/-- Witness for C6 at the spec's scenario `captureRegion(x, y, 0, h)`:
a zero width fails with `CaptureError`. -/
theorem claim_C6_capture_region_witness :
    ((0 : Nat) = 0 ∨ (7 : Nat) = 0) ∧
    capture_region ⟨1920, 1080⟩ [] 5 5 0 7 = .error .invalidDimensions :=
  ⟨Or.inl rfl, (claim_C6_capture_region ⟨1920, 1080⟩ [] 5 5 0 7).1 (Or.inl rfl)⟩

/-- C7: `insert_text` always inserts a new row regardless of duplicate
content: inserting the same text twice yields two distinct row ids and
increases the row count by exactly two — no deduplication at the store
layer. -/
theorem claim_C7_insert_text_no_dedup (db : Database) (t : String) (now1 now2 : Int) :
    (db.insert_text t now1).2 ≠ ((db.insert_text t now1).1.insert_text t now2).2 ∧
    ((db.insert_text t now1).1.insert_text t now2).1.rows.length = db.rows.length + 2 := by
  constructor
  · simp only [Database.insert_text]
    omega
  · simp only [Database.insert_text, List.append_assoc, List.length_append,
      List.length_cons, List.length_nil]

/-- A concrete hash function instance for witnesses and counterexamples
(any function is a faithful instance: claims only compare hash values). -/
def hasherW : Hasher := ⟨fun s => s.length, fun l => l.length⟩

/-- A cycle input that reads only the given text, with every lock taken and
every insert succeeding. -/
def inpText (s : String) : CycleInput := ⟨true, some s, none, true, true, true, true⟩

/-- A cycle input that reads the given text but whose `insert_text` call
returns a storage error. -/
def inpTextInsFail (s : String) : CycleInput := ⟨true, some s, none, true, false, true, true⟩

/-- A cycle input whose clipboard reads both return errors. -/
def inpIdle : CycleInput := ⟨true, none, none, true, true, true, true⟩

/-- C3: if the monitor observes the same non-empty text in two consecutive
cycles (clipboard lock taken in both, database lock taken in the first, and
the text's hash differing from the stored last-text hash — or no hash
stored yet), then `insert_text` is called exactly once across the two
cycles: once in the first, never in the second — for every database state,
including ones that already contain an older duplicate row. -/
theorem claim_C3_text_dedup (H : Hasher) (st : MonState) (db : Database)
    (inp1 inp2 : CycleInput) (now1 now2 : Int) (t : String)
    (hl1 : inp1.clipboardLockOk = true) (hr1 : inp1.textRead = some t)
    (hne : t ≠ "") (hdb1 : inp1.textDbLockOk = true)
    (hnew : st.lastTextHash ≠ some (H.text t))
    (hl2 : inp2.clipboardLockOk = true) (hr2 : inp2.textRead = some t) :
    (monitorCycle H st db inp1 now1).text.called = true ∧
    (monitorCycle H (monitorCycle H st db inp1 now1).state
      (monitorCycle H st db inp1 now1).db inp2 now2).text.called = false := by
  constructor
  · simp [monitorCycle, textStep, hl1, hr1, hne, hnew, hdb1]
  · simp [monitorCycle, textStep, hl1, hr1, hne, hnew, hdb1, hl2, hr2]

/-- Witness for C3: the text `"x"` observed in two consecutive cycles over a
database that already contains an older `"x"` row. -/
theorem claim_C3_text_dedup_witness :
    ("x" : String) ≠ "" ∧
    (monitorCycle hasherW ⟨0, none, none⟩ (Database.empty.insert_text "x" 0).1
      (inpText "x") 1).text.called = true ∧
    (monitorCycle hasherW
      (monitorCycle hasherW ⟨0, none, none⟩ (Database.empty.insert_text "x" 0).1
        (inpText "x") 1).state
      (monitorCycle hasherW ⟨0, none, none⟩ (Database.empty.insert_text "x" 0).1
        (inpText "x") 1).db (inpText "x") 2).text.called = false := by
  refine ⟨by decide, ?_, ?_⟩
  · exact (claim_C3_text_dedup hasherW ⟨0, none, none⟩ (Database.empty.insert_text "x" 0).1
      (inpText "x") (inpText "x") 1 2 "x" rfl rfl (by decide) rfl (by decide) rfl rfl).1
  · exact (claim_C3_text_dedup hasherW ⟨0, none, none⟩ (Database.empty.insert_text "x" 0).1
      (inpText "x") (inpText "x") 1 2 "x" rfl rfl (by decide) rfl (by decide) rfl rfl).2

/-- C1 counterexample: with an empty last-text-hash slot, text `"y"` is
observed and its `insert_text` call fails, yet the slot *is* updated to
`Some(hash)` in that same cycle (src/clipboard.rs:84 runs unconditionally),
so a second cycle observing the same text does *not* re-insert it — the
claim that a failed insert leaves the slot unchanged and the content is
re-inserted next cycle is false. -/
theorem claim_C1_counterexample :
    (monitorCycle hasherW ⟨0, none, none⟩ Database.empty (inpTextInsFail "y") 5).text.called
      = true ∧
    (monitorCycle hasherW ⟨0, none, none⟩ Database.empty
      (inpTextInsFail "y") 5).text.succeeded = false ∧
    (monitorCycle hasherW ⟨0, none, none⟩ Database.empty (inpTextInsFail "y") 5).db.rows = [] ∧
    (monitorCycle hasherW ⟨0, none, none⟩ Database.empty
      (inpTextInsFail "y") 5).state.lastTextHash = some (hasherW.text "y") ∧
    (monitorCycle hasherW ⟨0, none, none⟩ Database.empty
      (inpTextInsFail "y") 5).state.lastTextHash ≠ none ∧
    (monitorCycle hasherW
      (monitorCycle hasherW ⟨0, none, none⟩ Database.empty (inpTextInsFail "y") 5).state
      (monitorCycle hasherW ⟨0, none, none⟩ Database.empty (inpTextInsFail "y") 5).db
      (inpTextInsFail "y") 6).text.called = false := by
  decide

/-- C1 amended: when a channel observes new non-empty content but its
`ContentStore` insert fails or is skipped (database lock unavailable or the
write returning an error), the per-channel "last hash" slot is *still*
updated to the observed content's hash in that cycle, so the same content
is treated as a duplicate on the next cycle and is *not* re-inserted
(at-most-once delivery for observed content, not at-least-once). -/
theorem claim_C1_failed_insert_updates_hash (H : Hasher) (st : MonState) (db : Database)
    (inp : CycleInput) (now : Int) (t : String) (img : ClipImage)
    (hl : inp.clipboardLockOk = true) :
    (inp.textRead = some t → t ≠ "" → st.lastTextHash ≠ some (H.text t) →
      (inp.textDbLockOk && inp.textInsertOk) = false →
      (monitorCycle H st db inp now).text.succeeded = false ∧
      (monitorCycle H st db inp now).state.lastTextHash = some (H.text t) ∧
      ∀ inp2 : CycleInput, ∀ now2 : Int, inp2.clipboardLockOk = true →
        inp2.textRead = some t →
        (monitorCycle H (monitorCycle H st db inp now).state
          (monitorCycle H st db inp now).db inp2 now2).text.called = false) ∧
    (inp.imageRead = some img → img.bytes ≠ [] →
      st.lastImageHash ≠ some (H.bytes img.bytes) →
      (inp.imageDbLockOk && inp.imageInsertOk) = false →
      (monitorCycle H st db inp now).image.succeeded = false ∧
      (monitorCycle H st db inp now).state.lastImageHash = some (H.bytes img.bytes) ∧
      ∀ inp2 : CycleInput, ∀ now2 : Int, inp2.clipboardLockOk = true →
        inp2.imageRead = some img →
        (monitorCycle H (monitorCycle H st db inp now).state
          (monitorCycle H st db inp now).db inp2 now2).image.called = false) := by
  constructor
  · intro hr hne hnew hfail
    refine ⟨?_, ?_, ?_⟩
    · simp [monitorCycle, textStep, hl, hr, hne, hnew, hfail]
    · simp [monitorCycle, textStep, hl, hr, hne, hnew]
    · intro inp2 now2 hl2 hr2
      simp [monitorCycle, textStep, hl, hr, hne, hnew, hl2, hr2]
  · intro hr hne hnew hfail
    refine ⟨?_, ?_, ?_⟩
    · cases hE : encode_png img.bytes (u32 img.width) (u32 img.height) with
      | error e => simp [monitorCycle, imageStep, hl, hr, hne, hnew, hE]
      | ok png => simp [monitorCycle, imageStep, hl, hr, hne, hnew, hE, hfail]
    · cases hE : encode_png img.bytes (u32 img.width) (u32 img.height) with
      | error e => simp [monitorCycle, imageStep, hl, hr, hne, hnew, hE]
      | ok png => simp [monitorCycle, imageStep, hl, hr, hne, hnew, hE]
    · intro inp2 now2 hl2 hr2
      cases hE : encode_png img.bytes (u32 img.width) (u32 img.height) with
      | error e => simp [monitorCycle, imageStep, hl, hr, hne, hnew, hE, hl2, hr2]
      | ok png => simp [monitorCycle, imageStep, hl, hr, hne, hnew, hE, hl2, hr2]

/-- Witness for C1 (amended): text `"z"` whose insert fails; the slot is
updated and the insert did not succeed. -/
theorem claim_C1_failed_insert_updates_hash_witness :
    ((inpTextInsFail "z").textDbLockOk && (inpTextInsFail "z").textInsertOk) = false ∧
    (monitorCycle hasherW ⟨0, none, none⟩ Database.empty
      (inpTextInsFail "z") 7).text.succeeded = false ∧
    (monitorCycle hasherW ⟨0, none, none⟩ Database.empty
      (inpTextInsFail "z") 7).state.lastTextHash = some (hasherW.text "z") := by
  have h := (claim_C1_failed_insert_updates_hash hasherW ⟨0, none, none⟩ Database.empty
    (inpTextInsFail "z") 7 "z" ⟨0, 0, []⟩ rfl).1 rfl (by decide) (by decide) (by decide)
  exact ⟨by decide, h.1, h.2.1⟩

/-- C9 counterexample: a cycle that observes new text whose insert fails
produces *no* new entry, yet the no-change counter is reset to 0 rather
than incremented (`changed` is set before the insert is attempted,
src/clipboard.rs:78) — the claim that the counter is reset exactly on
cycles that produced at least one new entry and otherwise incremented is
false. -/
theorem claim_C9_counterexample :
    (monitorCycle hasherW ⟨3, none, none⟩ Database.empty
      (inpTextInsFail "w") 9).text.succeeded = false ∧
    (monitorCycle hasherW ⟨3, none, none⟩ Database.empty (inpTextInsFail "w") 9).db
      = Database.empty ∧
    (monitorCycle hasherW ⟨3, none, none⟩ Database.empty
      (inpTextInsFail "w") 9).state.noChangeCount = 0 ∧
    (0 : Nat) ≠ min (3 + 1) (2 ^ 32 - 1) := by
  decide

/-- C9 amended: at the start of each cycle the sleep interval is the base
750ms exactly when the no-change counter is at or below 5 and the idle
1000ms exactly when it exceeds 5; in a cycle that takes the clipboard lock,
the counter is reset to 0 iff at least one channel *observed* new content —
whether or not the corresponding store insert succeeded — and is otherwise
incremented with `u32` saturation. -/
theorem claim_C9_adaptive_interval (H : Hasher) (st : MonState) (db : Database)
    (inp : CycleInput) (now : Int) (hl : inp.clipboardLockOk = true) :
    ((monitorCycle H st db inp now).pollInterval = 750 ↔ st.noChangeCount ≤ 5) ∧
    ((monitorCycle H st db inp now).pollInterval = 1000 ↔ 5 < st.noChangeCount) ∧
    ((monitorCycle H st db inp now).state.noChangeCount =
      if (monitorCycle H st db inp now).text.observedNew ||
          (monitorCycle H st db inp now).image.observedNew then 0
      else min (st.noChangeCount + 1) (2 ^ 32 - 1)) := by
  refine ⟨?_, ?_, ?_⟩
  · simp only [monitorCycle, hl, if_true]
    split <;> omega
  · simp only [monitorCycle, hl, if_true]
    split <;> omega
  · simp [monitorCycle, hl]

/-- Witness for C9 (amended): an idle cycle (both reads fail) with the
counter at 7: idle interval is used and the counter saturating-increments. -/
theorem claim_C9_adaptive_interval_witness :
    inpIdle.clipboardLockOk = true ∧
    ((monitorCycle hasherW ⟨7, none, none⟩ Database.empty inpIdle 0).pollInterval = 1000 ↔
      5 < (⟨7, none, none⟩ : MonState).noChangeCount) ∧
    ((monitorCycle hasherW ⟨7, none, none⟩ Database.empty inpIdle 0).state.noChangeCount =
      if (monitorCycle hasherW ⟨7, none, none⟩ Database.empty inpIdle 0).text.observedNew ||
          (monitorCycle hasherW ⟨7, none, none⟩ Database.empty inpIdle 0).image.observedNew
        then 0
      else min ((⟨7, none, none⟩ : MonState).noChangeCount + 1) (2 ^ 32 - 1)) :=
  ⟨rfl,
    (claim_C9_adaptive_interval hasherW ⟨7, none, none⟩ Database.empty inpIdle 0 rfl).2.1,
    (claim_C9_adaptive_interval hasherW ⟨7, none, none⟩ Database.empty inpIdle 0 rfl).2.2⟩

theorem rows_nodup_map_id {l : List HistoryEntry}
    (h : l.Pairwise (fun a b => a.id < b.id)) : (l.map (fun r => r.id)).Nodup := by
  unfold List.Nodup
  exact List.pairwise_map.mpr (h.imp fun hab => ne_of_lt hab)

/-- C2 amended: `get_recent_entries_by_type` returns at most `limit` rows,
all of the requested content type, in strictly descending `created_at`
order — but rows with *equal* `created_at` are returned in *ascending* id
order, not descending: the SQL specifies no tiebreak, and SQLite's
descending scan of `idx_created_at` yields equal-key entries in ascending
rowid order. -/
theorem claim_C2_recent_entries (db : Database) (limit : Nat) (ct : ContentType)
    (hwf : db.Wf) :
    (db.get_recent_entries_by_type limit ct).length ≤ limit ∧
    (∀ r ∈ db.get_recent_entries_by_type limit ct, r.content_type = ct) ∧
    (db.get_recent_entries_by_type limit ct).Pairwise
      (fun a b => b.created_at < a.created_at ∨
        (a.created_at = b.created_at ∧ a.id < b.id)) := by
  refine ⟨?_, ?_, ?_⟩
  · simp only [Database.get_recent_entries_by_type, List.length_take]
    omega
  · intro r hr
    unfold Database.get_recent_entries_by_type at hr
    have h1 := List.mem_of_mem_take hr
    have h2 := (sortRows_perm _).mem_iff.mp h1
    exact of_decide_eq_true ((List.mem_filter.mp h2).2)
  · unfold Database.get_recent_entries_by_type
    have hsorted : (sortRows (db.rows.filter fun r =>
        decide (r.content_type = ct))).Pairwise rowLe := sortRows_sorted _
    have hne0 : (db.rows.filter fun r => decide (r.content_type = ct)).Pairwise
        (fun a b => a.id ≠ b.id) :=
      (hwf.1.imp fun hab => ne_of_lt hab).filter _
    have hne : (sortRows (db.rows.filter fun r =>
        decide (r.content_type = ct))).Pairwise (fun a b => a.id ≠ b.id) :=
      ((sortRows_perm _).pairwise_iff (fun h => h.symm)).mpr hne0
    exact ((hsorted.and hne).take).imp fun hab => by
      rcases hab with ⟨h1, h2⟩
      unfold rowLe at h1
      omega

/-- A database holding two text rows with *equal* `created_at` (two inserts
within the same clock second). -/
def dbTie : Database := ((Database.empty.insert_text "a" 100).1.insert_text "b" 100).1

/-- C2 counterexample: on two rows with equal `created_at`,
`get_recent_entries_by_type` returns id 1 *before* id 2 — ascending id
order — so the claimed "ties broken by id descending (most recent insert
first)" is false: the SQL `ORDER BY created_at DESC` has no id tiebreak and
SQLite yields equal-key rows in ascending rowid order. -/
theorem claim_C2_counterexample :
    (dbTie.get_recent_entries_by_type 10 .text).map (fun r => r.id) = [1, 2] ∧
    (dbTie.get_recent_entries_by_type 10 .text).map (fun r => r.created_at) = [100, 100] ∧
    ¬ (dbTie.get_recent_entries_by_type 10 .text).Pairwise
      (fun a b => b.created_at < a.created_at ∨
        (a.created_at = b.created_at ∧ b.id < a.id)) := by
  decide

/-- Witness for C2 (amended) on `dbTie` with limit 1. -/
theorem claim_C2_recent_entries_witness :
    dbTie.Wf ∧
    (dbTie.get_recent_entries_by_type 1 .text).length ≤ 1 ∧
    (dbTie.get_recent_entries_by_type 1 .text).Pairwise
      (fun a b => b.created_at < a.created_at ∨
        (a.created_at = b.created_at ∧ a.id < b.id)) :=
  ⟨by decide,
    (claim_C2_recent_entries dbTie 1 .text (by decide)).1,
    (claim_C2_recent_entries dbTie 1 .text (by decide)).2.2⟩

/-- C8: `enforce_max_entries(max)` is a no-op when the row count is at most
`max`; when the row count exceeds `max`, exactly `max` rows remain, and they
are precisely the first `max` rows of the table in `created_at`-descending
order (the `max` most recently created rows). -/
theorem claim_C8_enforce_max_entries (db : Database) (max : Nat) (hwf : db.Wf) :
    (db.rows.length ≤ max → (db.enforce_max_entries max).rows = db.rows) ∧
    (max < db.rows.length →
      (db.enforce_max_entries max).rows.length = max ∧
      ∀ r : HistoryEntry,
        r ∈ (db.enforce_max_entries max).rows ↔ r ∈ (sortRows db.rows).take max) := by
  have hids : (db.rows.map (fun r => r.id)).Nodup := rows_nodup_map_id hwf.1
  have hrows : db.rows.Nodup := List.Nodup.of_map _ hids
  constructor
  · intro hle
    unfold Database.enforce_max_entries
    have htake : (sortRows db.rows).take max = sortRows db.rows :=
      List.take_of_length_le (by rw [(sortRows_perm db.rows).length_eq]; exact hle)
    simp only [htake]
    apply List.filter_eq_self.mpr
    intro r hr
    apply decide_eq_true
    exact List.mem_map_of_mem _ ((sortRows_perm _).mem_iff.mpr hr)
  · intro hlt
    have hmemiff : ∀ r : HistoryEntry,
        r ∈ (db.enforce_max_entries max).rows ↔ r ∈ (sortRows db.rows).take max := by
      intro r
      unfold Database.enforce_max_entries
      simp only [List.mem_filter, decide_eq_true_eq]
      constructor
      · rintro ⟨hmem, hid⟩
        obtain ⟨r', hr'T, hr'id⟩ := List.mem_map.mp hid
        have hr'rows : r' ∈ db.rows :=
          (sortRows_perm _).mem_iff.mp (List.mem_of_mem_take hr'T)
        have heq : r' = r := List.inj_on_of_nodup_map hids hr'rows hmem hr'id
        rw [← heq]
        exact hr'T
      · intro hrT
        refine ⟨(sortRows_perm _).mem_iff.mp (List.mem_of_mem_take hrT), ?_⟩
        exact List.mem_map_of_mem _ hrT
    refine ⟨?_, hmemiff⟩
    have hTnodup : ((sortRows db.rows).take max).Nodup :=
      List.Nodup.sublist (List.take_sublist _ _) ((sortRows_perm db.rows).nodup_iff.mpr hrows)
    have hFnodup : (db.enforce_max_entries max).rows.Nodup := by
      unfold Database.enforce_max_entries
      exact hrows.filter _
    have hperm : (db.enforce_max_entries max).rows.Perm ((sortRows db.rows).take max) :=
      (List.perm_ext_iff_of_nodup hFnodup hTnodup).mpr hmemiff
    rw [hperm.length_eq, List.length_take, (sortRows_perm db.rows).length_eq]
    omega

/-- A database holding three text rows created at increasing times. -/
def dbThree : Database :=
  (((Database.empty.insert_text "a" 10).1.insert_text "b" 20).1.insert_text "c" 30).1

/-- Witness for C8 on a three-row database: `enforce_max_entries 5` is a
no-op and `enforce_max_entries 2` keeps exactly 2 rows. -/
theorem claim_C8_enforce_max_entries_witness :
    dbThree.rows.length ≤ 5 ∧
    (dbThree.enforce_max_entries 5).rows = dbThree.rows ∧
    2 < dbThree.rows.length ∧
    (dbThree.enforce_max_entries 2).rows.length = 2 :=
  ⟨by decide,
    (claim_C8_enforce_max_entries dbThree 5 (by decide)).1 (by decide),
    by decide,
    ((claim_C8_enforce_max_entries dbThree 2 (by decide)).2 (by decide)).1⟩

/-- C4 amended: `search_text(q)` returns at most 50 rows, in `created_at`
descending order, and only rows whose (non-`NULL`) `text_content` matches
the SQL `LIKE` pattern `%q%` under SQLite's default semantics —
ASCII-case-insensitive, with `%` and `_` in `q` acting as wildcards (for a
`q` without wildcard characters this is a case-insensitive substring
match, *not* the claimed literal one); image rows never match (their
`text_content` is `NULL`). -/
theorem claim_C4_search_text (db : Database) (q : String) (hwf : db.Wf) :
    (db.search_text q).length ≤ 50 ∧
    (db.search_text q).Pairwise (fun a b => b.created_at ≤ a.created_at) ∧
    (∀ r ∈ db.search_text q, r.content_type = .text ∧
      ∃ t : String, r.text_content = some t ∧
        likeMatch (likePattern q) t.data = true) := by
  refine ⟨?_, ?_, ?_⟩
  · simp only [Database.search_text, List.length_take]
    omega
  · unfold Database.search_text
    exact ((sortRows_sorted _).take).imp fun hab => by
      unfold rowLe at hab
      omega
  · intro r hr
    unfold Database.search_text at hr
    have h1 := List.mem_of_mem_take hr
    have h2 := (sortRows_perm _).mem_iff.mp h1
    have hmem : r ∈ db.rows := (List.mem_filter.mp h2).1
    have h3 : likeFilter q r = true := (List.mem_filter.mp h2).2
    unfold likeFilter at h3
    cases htc : r.text_content with
    | none =>
      rw [htc] at h3
      simp at h3
    | some t =>
      rw [htc] at h3
      have hty : r.content_type = .text := by
        cases hct : r.content_type with
        | text => rfl
        | image =>
          have hnone := ((hwf.2.2 r hmem).2 hct).2
          rw [htc] at hnone
          simp at hnone
      exact ⟨hty, t, rfl, h3⟩

/-- A database holding one lower-case text row. -/
def dbLower : Database := (Database.empty.insert_text "a" 0).1

/-- C4 counterexample: `search_text "A"` *returns* the row whose text is
`"a"`, although `"a"` does not contain `"A"` as a literal substring — SQL
`LIKE` is ASCII-case-insensitive, so the "literal substring" part of the
claim is false. -/
theorem claim_C4_counterexample :
    (dbLower.search_text "A").map (fun r => r.text_content) = [some "a"] ∧
    containsSub "A".data "a".data = false := by
  decide

/-- Witness for C4 (amended) on `dbLower` with query `"A"`. -/
theorem claim_C4_search_text_witness :
    dbLower.Wf ∧
    (dbLower.search_text "A").length ≤ 50 ∧
    (dbLower.search_text "A").Pairwise (fun a b => b.created_at ≤ a.created_at) :=
  ⟨by decide,
    (claim_C4_search_text dbLower "A" (by decide)).1,
    (claim_C4_search_text dbLower "A" (by decide)).2.1⟩
